import Mathlib

/-!
Shallow embedding of the GNSS data-acquisition-and-normalization layer of
`particle-tachyon-gps-dbus`: the scalar coercion utilities (`ParseFloatVariant`,
`ToInt8`, `ToInt32`, `ToUint8`), the positioning-record decoder `getGnssData`
(src/main.go), and the per-tick acquisition/publish loop of `main`.

Modelling conventions:
* A D-Bus variant value (`dbus.Variant` / the `any` it wraps) is the closed
  inductive `DVal`, one constructor per dynamic Go type observed at this
  interface: the fixed-width integers, `int`/`uint`, `float64`, `string`,
  `[]any` and `[][]any`.
* Go machine integers are carried as `Int`/`Nat`; the narrowing conversions
  `int8(v)`, `int32(v)`, `uint8(v)` are the explicit two's-complement /
  unsigned wraparound functions `wrapI8`, `wrapI32`, `wrapU8`.
* Go `float64` is abstracted as `ℚ` (`GoFloat`): the claims about the float
  path concern which representations are accepted and that finite values pass
  through by value, so an exact field is a faithful carrier. Binary rounding,
  the non-finite values ±Inf/NaN (produced by the special strings recognized
  syntactically by `isSpecialFloatString`) and `strconv`'s ErrRange behaviour
  on out-of-range literals are outside this carrier; every theorem about the
  string path is scoped to the finite in-range fragment (`Float64InRange`)
  where the embedding is exact.
* The raw record `map[string]dbus.Variant` is an association list
  `List (String × DVal)` read through `List.lookup`.
-/

/-- Go `float64` values, abstracted as exact rationals (no claim here depends
on rounding, infinities or NaN). -/
abbrev GoFloat := ℚ

/-- A dynamically-typed value held by a D-Bus variant: the closed set of Go
dynamic types that can reach the coercion utilities and the decoder. -/
inductive DVal where
  | vInt8 (n : Int)
  | vUint8 (n : Nat)
  | vInt16 (n : Int)
  | vUint16 (n : Nat)
  | vInt32 (n : Int)
  | vUint32 (n : Nat)
  | vInt64 (n : Int)
  | vUint64 (n : Nat)
  | vInt (n : Int)
  | vUint (n : Nat)
  | vFloat64 (x : GoFloat)
  | vString (s : String)
  | vSeq (xs : List DVal)
  | vSeqSeq (xs : List (List DVal))
  deriving Repr

/-- Go's conversion to `uint8`: keep the low 8 bits, read unsigned. -/
def wrapU8 (n : Int) : Nat := (n % 256).toNat

/-- Go's conversion to `int8`: keep the low 8 bits, read two's complement. -/
def wrapI8 (n : Int) : Int := (n + 128) % 256 - 128

/-- Go's conversion to `int32`: keep the low 32 bits, read two's complement. -/
def wrapI32 (n : Int) : Int := (n + 2 ^ 31) % 2 ^ 32 - 2 ^ 31

/-- Embedding of `ToInt8` (gnss_dbus.go): a type switch over the dynamic type
of `val`; the six recognized integer representations are converted with Go's
`int8(v)`, everything else falls to the `default` branch returning `0`. -/
def ToInt8 : DVal → Int
  | .vInt8 n => n
  | .vUint8 n => wrapI8 n
  | .vInt32 n => wrapI8 n
  | .vUint32 n => wrapI8 n
  | .vInt n => wrapI8 n
  | .vUint n => wrapI8 n
  | _ => 0

/-- Embedding of `ToInt32` (gnss_dbus.go): same six recognized integer
representations, converted with Go's `int32(v)`; `default` returns `0`. -/
def ToInt32 : DVal → Int
  | .vInt8 n => n
  | .vUint8 n => (n : Int)
  | .vInt32 n => n
  | .vUint32 n => wrapI32 n
  | .vInt n => wrapI32 n
  | .vUint n => wrapI32 n
  | _ => 0

/-- Embedding of `ToUint8` (gnss_dbus.go): same six recognized integer
representations, converted with Go's `uint8(v)`; `default` returns `0`. -/
def ToUint8 : DVal → Nat
  | .vInt8 n => wrapU8 n
  | .vUint8 n => n
  | .vInt32 n => wrapU8 n
  | .vUint32 n => wrapU8 n
  | .vInt n => wrapU8 n
  | .vUint n => wrapU8 n
  | _ => 0

/-- The dynamic types the three integer converters recognize: exactly
`int8`, `uint8`, `int32`, `uint32`, `int`, `uint`. -/
def intRecognized : DVal → Bool
  | .vInt8 _ => true
  | .vUint8 _ => true
  | .vInt32 _ => true
  | .vUint32 _ => true
  | .vInt _ => true
  | .vUint _ => true
  | _ => false

/-- The dynamic types `ParseFloatVariant` recognizes: `float64`, `string`,
`int32`. -/
def floatRecognized : DVal → Bool
  | .vFloat64 _ => true
  | .vString _ => true
  | .vInt32 _ => true
  | _ => false

/-- Longest digit run at the head of a character list (helper for the model
of `strconv.ParseFloat`). -/
def takeDigits : List Char → List Char × List Char
  | [] => ([], [])
  | c :: cs =>
    if c.isDigit then
      let p := takeDigits cs
      (c :: p.1, p.2)
    else ([], c :: cs)

/-- Value of a digit run read in base 10. -/
def digitsVal (ds : List Char) : Nat := ds.foldl (fun a c => 10 * a + (c.toNat - 48)) 0

/-- The plain decimal fragment of Go `strconv.ParseFloat(s, 64)` (library
dependency, not in the repository): optional sign, integer digits, optional
fractional digits (at least one digit overall), optional decimal exponent,
no underscores. This fragment is also the formalization of the spec's phrase
"a string parseable as a decimal number". The full model of `ParseFloat`'s
accepted syntax — adding underscore separators, hexadecimal floating-point
literals and the special-value strings — is `parseGoFloat` /
`isSpecialFloatString` below. `none` models the syntax-error return, in
which Go yields the value `0` together with the error. -/
def parseDecimalChars (cs0 : List Char) : Option GoFloat :=
  let sp : ℚ × List Char :=
    match cs0 with
    | '-' :: r => (-1, r)
    | '+' :: r => (1, r)
    | r => (1, r)
  let ip := takeDigits sp.2
  let fp : List Char × List Char :=
    match ip.2 with
    | '.' :: r => takeDigits r
    | r => ([], r)
  if ip.1.isEmpty && fp.1.isEmpty then none
  else
    let mant : ℚ := (digitsVal ip.1 : ℚ) + (digitsVal fp.1 : ℚ) / ((10 : ℚ) ^ fp.1.length)
    match fp.2 with
    | [] => some (sp.1 * mant)
    | e :: r =>
      if e = 'e' || e = 'E' then
        let es : Bool × List Char :=
          match r with
          | '-' :: r2 => (true, r2)
          | '+' :: r2 => (false, r2)
          | r2 => (false, r2)
        let ed := takeDigits es.2
        if ed.1.isEmpty || !ed.2.isEmpty then none
        else if es.1 then some (sp.1 * mant / (10 : ℚ) ^ digitsVal ed.1)
        else some (sp.1 * mant * (10 : ℚ) ^ digitsVal ed.1)
      else none

/-- String front end of the decimal fragment. -/
def parseDecimal (s : String) : Option GoFloat := parseDecimalChars s.toList

/-- Hexadecimal digit (0-9, a-f, A-F). -/
def hexDigit (c : Char) : Bool :=
  c.isDigit || ('a' ≤ c.toLower && c.toLower ≤ 'f')

/-- Value of one hexadecimal digit. -/
def hexDigitVal (c : Char) : Nat :=
  if c.isDigit then c.toNat - 48 else c.toLower.toNat - 87

/-- Longest hexadecimal digit run at the head of a character list. -/
def takeHexDigits : List Char → List Char × List Char
  | [] => ([], [])
  | c :: cs =>
    if hexDigit c then
      let p := takeHexDigits cs
      (c :: p.1, p.2)
    else ([], c :: cs)

/-- Value of a hexadecimal digit run. -/
def hexVal (ds : List Char) : Nat := ds.foldl (fun a c => 16 * a + hexDigitVal c) 0

/-- Scanner of Go `strconv`'s `underscoreOK`: walks the characters tracking
the class of the previous one (`'^'` start, `'0'` digit or base prefix,
`'_'` underscore, `'!'` anything else); an underscore must follow and be
followed by a digit. `hex` widens the digit class to a-f. -/
def underscoreScan (hex : Bool) (saw : Char) : List Char → Bool
  | [] => saw != '_'
  | c :: cs =>
    if c.isDigit || (hex && ('a' ≤ c.toLower && c.toLower ≤ 'f')) then
      underscoreScan hex '0' cs
    else if c = '_' then
      (saw == '0') && underscoreScan hex '_' cs
    else if saw = '_' then false
    else underscoreScan hex '!' cs

/-- Model of Go `strconv`'s `underscoreOK`: underscores are legal only
between digits (a `0x`/`0X` base prefix counting as a digit), after an
optional leading sign. Strings without underscores always pass. -/
def underscoreOK (cs0 : List Char) : Bool :=
  let cs1 : List Char :=
    match cs0 with
    | '+' :: r => r
    | '-' :: r => r
    | r => r
  match cs1 with
  | '0' :: x :: r =>
    if x = 'x' || x = 'X' then underscoreScan true '0' r
    else underscoreScan false '^' cs1
  | _ => underscoreScan false '^' cs1

/-- The discrete fields of a hexadecimal floating-point literal: sign, the
mantissa digits read as one hexadecimal integer, how many of those digits
were fractional, and the signed binary exponent. -/
structure HexParts where
  negSign : Bool
  mantNum : Nat
  fracLen : Nat
  expNeg : Bool
  expVal : Nat
  deriving DecidableEq, Repr

/-- Hexadecimal mantissa: hex digits, optional `.` and further hex digits,
at least one digit overall; returns the digits read as one integer together
with the fractional digit count and the rest of the input. -/
def hexMantissa (r : List Char) : Option (Nat × Nat × List Char) :=
  let ip := takeHexDigits r
  match ip.2 with
  | '.' :: r2 =>
    let fp := takeHexDigits r2
    if ip.1.isEmpty && fp.1.isEmpty then none
    else some (hexVal (ip.1 ++ fp.1), fp.1.length, fp.2)
  | r2 =>
    if ip.1.isEmpty then none else some (hexVal ip.1, 0, r2)

/-- Mandatory binary exponent of a hexadecimal literal: `p`/`P`, optional
sign, decimal digits, end of input. -/
def hexExponent : List Char → Option (Bool × Nat)
  | p :: r3 =>
    if p = 'p' || p = 'P' then
      let es : Bool × List Char :=
        match r3 with
        | '-' :: r4 => (true, r4)
        | '+' :: r4 => (false, r4)
        | r4 => (false, r4)
      let ed := takeDigits es.2
      if ed.1.isEmpty || !ed.2.isEmpty then none
      else some (es.1, digitsVal ed.1)
    else none
  | [] => none

/-- Recognizer of Go's hexadecimal floating-point literal syntax
(underscore-free input): optional sign, `0x`/`0X`, hexadecimal mantissa,
mandatory binary exponent. -/
def parseHexParts (cs0 : List Char) : Option HexParts :=
  let sp : Bool × List Char :=
    match cs0 with
    | '-' :: r => (true, r)
    | '+' :: r => (false, r)
    | r => (false, r)
  match sp.2 with
  | '0' :: x :: r =>
    if x = 'x' || x = 'X' then
      match hexMantissa r with
      | some m =>
        match hexExponent m.2.2 with
        | some e => some ⟨sp.1, m.1, m.2.1, e.1, e.2⟩
        | none => none
      | none => none
    else none
  | _ => none

/-- Exact value of a hexadecimal floating-point literal:
`± mantNum / 16^fracLen * 2^±expVal` (a dyadic rational, exact in `ℚ`). -/
def parseHexChars (cs0 : List Char) : Option GoFloat :=
  match parseHexParts cs0 with
  | some t =>
    let mag : GoFloat :=
      if t.expNeg then (t.mantNum : ℚ) / ((16 : ℚ) ^ t.fracLen * (2 : ℚ) ^ t.expVal)
      else (t.mantNum : ℚ) * (2 : ℚ) ^ t.expVal / (16 : ℚ) ^ t.fracLen
    some (if t.negSign then -mag else mag)
  | none => none

/-- Model of `strconv.ParseFloat(s, 64)`'s finite-literal acceptance with
exact rational values. Following Go's `readFloat` + `underscoreOK`
structure, underscores are validated by position and then dropped, and the
remainder must be a decimal or hexadecimal floating-point literal. The
decimal fragment is tried on the raw input first, which coincides with the
canonical route because a string the decimal fragment accepts contains no
underscore. `none` covers Go's syntax errors and also the special-value
strings (`isSpecialFloatString`), whose non-finite values are outside the
rational carrier; for in-range finite literals the value is Go's modulo
binary rounding, and ErrRange on out-of-range literals is not modelled
(see `Float64InRange`). -/
def parseGoFloatChars (cs : List Char) : Option GoFloat :=
  match parseDecimalChars cs with
  | some q => some q
  | none =>
    if underscoreOK cs then
      let cs1 := cs.filter (fun c => c != '_')
      match parseDecimalChars cs1 with
      | some q => some q
      | none => parseHexChars cs1
    else none

/-- String front end of the `strconv.ParseFloat` model. -/
def parseGoFloat (s : String) : Option GoFloat := parseGoFloatChars s.toList

/-- The special-value strings `strconv.ParseFloat` accepts with a non-finite
result: case-insensitive `inf`/`infinity` with an optional sign, and
unsigned case-insensitive `nan` (Go's `special` rejects a signed NaN). -/
def isSpecialFloatString (s : String) : Bool :=
  let body : List Char → Bool := fun r =>
    r == ['i', 'n', 'f'] || r == ['i', 'n', 'f', 'i', 'n', 'i', 't', 'y']
  match s.toList.map Char.toLower with
  | '+' :: r => body r
  | '-' :: r => body r
  | r => body r || r == ['n', 'a', 'n']

/-- The exact values on which `strconv.ParseFloat` reports no range error:
magnitude below the float64 overflow threshold `2^1024 - 2^970` and, unless
zero, above the underflow-to-zero threshold `2^-1075`. Outside this range Go
returns ±Inf or 0 together with `ErrRange`; theorems about the string path
are scoped to this range, where the rational embedding is faithful. -/
def Float64InRange (q : GoFloat) : Prop :=
  |q| < 2 ^ 1024 - 2 ^ 970 ∧ (q = 0 ∨ 1 / 2 ^ 1075 < |q|)

/-- Embedding of `ParseFloatVariant` (gnss_dbus.go): `float64` passes through,
a `string` goes to `strconv.ParseFloat` (which on syntax error returns `0`
with the error), `int32` is widened by value, and every other dynamic type
yields `0` with the "unexpected type" error. The second component models the
Go `error` result (`none` = nil). -/
def ParseFloatVariant (v : DVal) : GoFloat × Option String :=
  match v with
  | .vFloat64 x => (x, none)
  | .vString s =>
    match parseGoFloat s with
    | some q => (q, none)
    | none => (0, some "invalid syntax")
  | .vInt32 n => ((n : ℚ), none)
  | _ => (0, some "unexpected type for GNSS value")

example : parseDecimal "12.34" = some (617 / 50 : ℚ) := by
  simp +decide [parseDecimal, parseDecimalChars, takeDigits, digitsVal]
  norm_num
example : parseDecimal "abc" = none := by rfl
example : ToUint8 (.vInt32 300) = 44 := by decide
example : ToInt8 (.vInt32 200) = -56 := by decide

/-- Embedding of the `NmeaSatelliteMsg` struct (src/main.go): `Num`, `Eledeg`,
`SN` are Go `int8`, `Azideg` is `int32`; all carried as `Int`. -/
structure NmeaSatelliteMsg where
  Num : Int
  Eledeg : Int
  Azideg : Int
  SN : Int
  deriving DecidableEq, Repr

/-- Go zero value of `NmeaSatelliteMsg`. -/
def defaultSat : NmeaSatelliteMsg := ⟨0, 0, 0, 0⟩

/-- Embedding of the `BeidouNmeaSatelliteMsg` struct (src/main.go). -/
structure BeidouNmeaSatelliteMsg where
  BeidouNum : Int
  BeidouEledeg : Int
  BeidouAzideg : Int
  BeidouSN : Int
  deriving DecidableEq, Repr

/-- Go zero value of `BeidouNmeaSatelliteMsg`. -/
def defaultBeidouSat : BeidouNmeaSatelliteMsg := ⟨0, 0, 0, 0⟩

/-- Embedding of the `NmeaUtcTime` struct (src/main.go): `Year` is `int32`,
the rest are `int8`; all carried as `Int`. -/
structure NmeaUtcTime where
  Year : Int
  Month : Int
  Date : Int
  Hour : Int
  Min : Int
  Sec : Int
  deriving DecidableEq, Repr

/-- Go zero value of `NmeaUtcTime`. -/
def defaultUtc : NmeaUtcTime := ⟨0, 0, 0, 0, 0, 0⟩

/-- The named constant `MaxSatelliteCount` (src/main.go): the single slot
count used by all three satellite-indexed collections. -/
def MaxSatelliteCount : Nat := 12

/-- Embedding of the `GnssFullData` struct (src/main.go). The three Go
fixed-size arrays `[MaxSatelliteCount]T` are carried as lists; the decoder
always produces lists of length `MaxSatelliteCount` (proved below), matching
the fixed array type. Unsigned Go fields are `Nat`, signed ones `Int`. -/
structure GnssFullData where
  Valid : Int
  LastLockTimeMs : Nat
  Svnum : Nat
  BeidouSvnum : Nat
  NSHemi : String
  EWHemi : String
  Latitude : GoFloat
  Longitude : GoFloat
  Gpssta : Nat
  Posslnum : Nat
  Fixmode : Nat
  Pdop : GoFloat
  Hdop : GoFloat
  Vdop : GoFloat
  Altitude : GoFloat
  Speed : GoFloat
  Utc : NmeaUtcTime
  Slmsg : List NmeaSatelliteMsg
  BeidouSlmsg : List BeidouNmeaSatelliteMsg
  Possl : List Nat
  deriving DecidableEq, Repr

/-- Go zero value of `GnssFullData` (`GnssFullData{}`): numbers 0, strings
empty, the three arrays filled with their element's zero value. -/
def defaultGnssFullData : GnssFullData where
  Valid := 0
  LastLockTimeMs := 0
  Svnum := 0
  BeidouSvnum := 0
  NSHemi := ""
  EWHemi := ""
  Latitude := 0
  Longitude := 0
  Gpssta := 0
  Posslnum := 0
  Fixmode := 0
  Pdop := 0
  Hdop := 0
  Vdop := 0
  Altitude := 0
  Speed := 0
  Utc := defaultUtc
  Slmsg := List.replicate MaxSatelliteCount defaultSat
  BeidouSlmsg := List.replicate MaxSatelliteCount defaultBeidouSat
  Possl := List.replicate MaxSatelliteCount 0

/-- The raw key/value record a successful `GetGnss` D-Bus call stores into
`map[string]dbus.Variant`, as an association list. -/
abbrev RawRecord := List (String × DVal)

/-- Go's two-value type assertion `v.Value().(int32)`: the `int32` payload,
or the zero value `0` for any other dynamic type. -/
def asInt32 : DVal → Int
  | .vInt32 n => n
  | _ => 0

/-- Go's two-value type assertion `v.Value().(uint64)`. -/
def asUint64 : DVal → Nat
  | .vUint64 n => n
  | _ => 0

/-- Go's two-value type assertion `v.Value().(uint8)`. -/
def asUint8 : DVal → Nat
  | .vUint8 n => n
  | _ => 0

/-- Go's two-value type assertion `v.Value().(string)`. -/
def asString : DVal → String
  | .vString s => s
  | _ => ""

/-- One satellite slot decoded from an inner `slmsg` sequence: the Go loop
body sets the slot only when `len(arr[i]) == 4`, reading the four positions
with `ToInt8`/`ToInt8`/`ToInt32`/`ToInt8`; `none` models the skipped slot. -/
def mkSlmsg : List DVal → Option NmeaSatelliteMsg
  | [a, b, c, d] => some ⟨ToInt8 a, ToInt8 b, ToInt32 c, ToInt8 d⟩
  | _ => none

/-- One Beidou satellite slot decoded from an inner `beidou_slmsg` sequence
(same `len == 4` guard and converters as `mkSlmsg`). -/
def mkBeidouSlmsg : List DVal → Option BeidouNmeaSatelliteMsg
  | [a, b, c, d] => some ⟨ToInt8 a, ToInt8 b, ToInt32 c, ToInt8 d⟩
  | _ => none

/-- One `possl` slot: every scalar entry is written through `ToUint8`
(no shape guard in the Go loop). -/
def mkPossl (e : DVal) : Option Nat := some (ToUint8 e)

/-- The decoder's satellite-array loop
`for i := 0; i < len(arr) && i < MaxSatelliteCount; i++`: walk the reported
entries with index `i`, stopping at `MaxSatelliteCount`; each entry `e`
either overwrites slot `i` (when `g e = some x`) or leaves it untouched. -/
def fillLoop {E α : Type} (g : E → Option α) (slots : List α) :
    List E → Nat → List α
  | [], _ => slots
  | e :: rest, i =>
    if i < MaxSatelliteCount then
      fillLoop g
        (match g e with
          | some x => slots.set i x
          | none => slots) rest (i + 1)
    else slots

/-- The decoder's UTC block: a `[]any` of exactly 6 elements is read
positionally (`ToInt32` for the year, `ToInt8` for the rest); any other
shape leaves the sub-record at its zero value. -/
def decodeUtc : DVal → NmeaUtcTime
  | .vSeq [a, b, c, d, e, f] =>
    ⟨ToInt32 a, ToInt8 b, ToInt8 c, ToInt8 d, ToInt8 e, ToInt8 f⟩
  | _ => defaultUtc

/-- The decoder's `slmsg` block: a `[][]any` runs the satellite loop over a
zero-valued 12-slot array; any other dynamic type leaves the array at its
zero value. -/
def decodeSlmsgList : DVal → List NmeaSatelliteMsg
  | .vSeqSeq arr => fillLoop mkSlmsg (List.replicate MaxSatelliteCount defaultSat) arr 0
  | _ => List.replicate MaxSatelliteCount defaultSat

/-- The decoder's `beidou_slmsg` block. -/
def decodeBeidouList : DVal → List BeidouNmeaSatelliteMsg
  | .vSeqSeq arr => fillLoop mkBeidouSlmsg (List.replicate MaxSatelliteCount defaultBeidouSat) arr 0
  | _ => List.replicate MaxSatelliteCount defaultBeidouSat

/-- The decoder's `possl` block: a flat `[]any` runs the loop with `ToUint8`
on every entry. -/
def decodePosslList : DVal → List Nat
  | .vSeq arr => fillLoop mkPossl (List.replicate MaxSatelliteCount 0) arr 0
  | _ => List.replicate MaxSatelliteCount 0

/-- Embedding of the decoding part of `getGnssData` (src/main.go): the
mapping from a successfully-stored raw record to the typed `GnssFullData`.
The Go function initializes `data := GnssFullData{}` and then runs one
`if v, ok := result[key]; ok` block per field; as every block assigns a
distinct field, the sequence of assignments is written as one record
literal, one field expression per block. The D-Bus call failure path
(`return nil, err`) happens before any decoding and is modelled in the
acquisition loop (`processTick`), not here. -/
def getGnssData (result : RawRecord) : GnssFullData where
  Valid := match List.lookup "valid" result with
    | some v => asInt32 v
    | none => 0
  LastLockTimeMs := match List.lookup "last_lock_time_ms" result with
    | some v => asUint64 v
    | none => 0
  Svnum := match List.lookup "svnum" result with
    | some v => asUint8 v
    | none => 0
  BeidouSvnum := match List.lookup "beidou_svnum" result with
    | some v => asUint8 v
    | none => 0
  NSHemi := match List.lookup "nshemi" result with
    | some v => asString v
    | none => ""
  EWHemi := match List.lookup "ewhemi" result with
    | some v => asString v
    | none => ""
  Latitude := match List.lookup "latitude" result with
    | some v => (ParseFloatVariant v).1
    | none => 0
  Longitude := match List.lookup "longitude" result with
    | some v => (ParseFloatVariant v).1
    | none => 0
  Gpssta := match List.lookup "gpssta" result with
    | some v => asUint8 v
    | none => 0
  Posslnum := match List.lookup "posslnum" result with
    | some v => asUint8 v
    | none => 0
  Fixmode := match List.lookup "fixmode" result with
    | some v => asUint8 v
    | none => 0
  Pdop := match List.lookup "pdop" result with
    | some v => (ParseFloatVariant v).1
    | none => 0
  Hdop := match List.lookup "hdop" result with
    | some v => (ParseFloatVariant v).1
    | none => 0
  Vdop := match List.lookup "vdop" result with
    | some v => (ParseFloatVariant v).1
    | none => 0
  Altitude := match List.lookup "altitude" result with
    | some v => (ParseFloatVariant v).1
    | none => 0
  Speed := match List.lookup "speed" result with
    | some v => (ParseFloatVariant v).1
    | none => 0
  Utc := match List.lookup "utc" result with
    | some v => decodeUtc v
    | none => defaultUtc
  Slmsg := match List.lookup "slmsg" result with
    | some v => decodeSlmsgList v
    | none => List.replicate MaxSatelliteCount defaultSat
  BeidouSlmsg := match List.lookup "beidou_slmsg" result with
    | some v => decodeBeidouList v
    | none => List.replicate MaxSatelliteCount defaultBeidouSat
  Possl := match List.lookup "possl" result with
    | some v => decodePosslList v
    | none => List.replicate MaxSatelliteCount 0

/-- What one tick of `main`'s loop is given: the outcome of the
`getGnssData` D-Bus call (`Except` models its `error` return), and whether
`json.Marshal` and the broker publish succeed on this tick. -/
structure TickInput where
  acq : Except String RawRecord
  marshalOk : Bool
  publishOk : Bool

/-- The per-tick outcome `main` logs: one constructor per `log.Printf`
branch of the `case <-ticker.C` body. -/
inductive TickEvent where
  | acquireFailed
  | marshalFailed
  | publishError
  | published
  deriving DecidableEq, Repr

/-- Embedding of the `case <-ticker.C` body of `main` (src/main.go): on an
acquisition error the tick is skipped (`continue`) and nothing is handed to
the publish call; on success the record is decoded, marshalled and handed to
`client.Publish`. The second component collects the records handed to the
publish call on this tick. Every input yields an outcome: the body has no
crashing or returning path, so the loop always reaches the next tick. -/
def processTick (t : TickInput) : TickEvent × List GnssFullData :=
  match t.acq with
  | .error _ => (.acquireFailed, [])
  | .ok raw =>
    if t.marshalOk then
      if t.publishOk then (.published, [getGnssData raw])
      else (.publishError, [getGnssData raw])
    else (.marshalFailed, [])

/-- The ticker loop of `main` over a finite trace of tick inputs: each tick
is processed independently and the loop continues regardless of the tick's
outcome. -/
def runLoop (ticks : List TickInput) : List (TickEvent × List GnssFullData) :=
  ticks.map processTick

example : getGnssData [] = defaultGnssFullData := by decide
example : (getGnssData [("valid", .vInt32 1)]).Valid = 1 := by decide
example : (getGnssData [("valid", .vUint8 1)]).Valid = 0 := by decide
example :
    (getGnssData [("utc", .vSeq [.vInt32 2024, .vInt32 6, .vInt32 15, .vInt32 10, .vInt32 30, .vInt32 0])]).Utc
      = ⟨2024, 6, 15, 10, 30, 0⟩ := by decide
example : (getGnssData [("utc", .vSeq [.vInt32 2024, .vInt32 6])]).Utc = defaultUtc := by decide
example :
    (getGnssData [("slmsg", .vSeqSeq [[.vInt32 7, .vInt32 45, .vInt32 120, .vInt32 33], [.vInt32 1]])]).Slmsg
      = ⟨7, 45, 120, 33⟩ :: List.replicate 11 defaultSat := by decide

/-- The satellite loop never changes the number of slots. -/
theorem fillLoop_length {E α : Type} (g : E → Option α) (slots : List α)
    (arr : List E) (i : Nat) : (fillLoop g slots arr i).length = slots.length := by
  induction arr generalizing slots i with
  | nil => rfl
  | cons e rest ih =>
    simp only [fillLoop]
    split
    · cases hg : g e with
      | none => simp only [hg]; exact ih _ _
      | some x => simp only [hg]; rw [ih, List.length_set]
    · rfl

/-- Slots the loop never visits (below the start index, at or past the end of
the reported entries, or at index `MaxSatelliteCount` or beyond) keep their
previous value. -/
theorem fillLoop_getElem_untouched {E α : Type} (g : E → Option α) (slots : List α)
    (arr : List E) (i j : Nat)
    (h : j < i ∨ arr.length + i ≤ j ∨ MaxSatelliteCount ≤ j) :
    (fillLoop g slots arr i)[j]? = slots[j]? := by
  induction arr generalizing slots i with
  | nil => rfl
  | cons e rest ih =>
    simp only [fillLoop]
    split
    · rename_i hi
      have hij : i ≠ j := by
        rcases h with h | h | h
        · omega
        · simp only [List.length_cons] at h; omega
        · omega
      have h' : j < i + 1 ∨ rest.length + (i + 1) ≤ j ∨ MaxSatelliteCount ≤ j := by
        rcases h with h | h | h
        · omega
        · simp only [List.length_cons] at h; omega
        · omega
      cases hg : g e with
      | none => simp only [hg]; exact ih _ _ h'
      | some x =>
        simp only [hg]
        rw [ih _ _ h']
        exact List.getElem?_set_ne hij
    · rfl

/-- A visited entry whose decode succeeds overwrites exactly its slot. -/
theorem fillLoop_getElem_set {E α : Type} (g : E → Option α) (slots : List α)
    (arr : List E) (i j : Nat) (e : E) (x : α)
    (he : arr[j - i]? = some e) (hg : g e = some x) (hij : i ≤ j)
    (hj : j < MaxSatelliteCount) (hs : j < slots.length) :
    (fillLoop g slots arr i)[j]? = some x := by
  induction arr generalizing slots i with
  | nil => simp at he
  | cons a rest ih =>
    have hi12 : i < MaxSatelliteCount := lt_of_le_of_lt hij hj
    simp only [fillLoop, if_pos hi12]
    by_cases hji : j = i
    · subst hji
      have ha : a = e := by simpa using he
      subst ha
      simp only [hg]
      rw [fillLoop_getElem_untouched]
      · exact List.getElem?_set_self hs
      · left; omega
    · have hij1 : i + 1 ≤ j := by omega
      have he' : rest[j - (i + 1)]? = some e := by
        have hd : j - i = (j - (i + 1)) + 1 := by omega
        rw [hd] at he
        simpa using he
      cases hga : g a with
      | none => simp only [hga]; exact ih _ _ he' hij1 hs
      | some y =>
        simp only [hga]
        exact ih _ _ he' hij1 (by simpa [List.length_set] using hs)

/-- A visited entry whose decode is skipped leaves its slot at the previous
value, and the rest of the iteration still runs. -/
theorem fillLoop_getElem_skip {E α : Type} (g : E → Option α) (slots : List α)
    (arr : List E) (i j : Nat) (e : E)
    (he : arr[j - i]? = some e) (hg : g e = none) (hij : i ≤ j)
    (hj : j < MaxSatelliteCount) :
    (fillLoop g slots arr i)[j]? = slots[j]? := by
  induction arr generalizing slots i with
  | nil => simp at he
  | cons a rest ih =>
    have hi12 : i < MaxSatelliteCount := lt_of_le_of_lt hij hj
    simp only [fillLoop, if_pos hi12]
    by_cases hji : j = i
    · subst hji
      have ha : a = e := by simpa using he
      subst ha
      simp only [hg]
      rw [fillLoop_getElem_untouched]
      left; omega
    · have hij1 : i + 1 ≤ j := by omega
      have he' : rest[j - (i + 1)]? = some e := by
        have hd : j - i = (j - (i + 1)) + 1 := by omega
        rw [hd] at he
        simpa using he
      cases hga : g a with
      | none => simp only [hga]; exact ih _ _ he' hij1
      | some y =>
        simp only [hga]
        rw [ih _ _ he' hij1]
        exact List.getElem?_set_ne (by omega)

/-- Entries past slot `MaxSatelliteCount - i` never influence the loop:
the iteration reads at most the first `MaxSatelliteCount - i` entries. -/
theorem fillLoop_take {E α : Type} (g : E → Option α) (slots : List α)
    (arr : List E) (i : Nat) :
    fillLoop g slots (arr.take (MaxSatelliteCount - i)) i = fillLoop g slots arr i := by
  induction arr generalizing slots i with
  | nil => simp [List.take_nil]
  | cons e rest ih =>
    by_cases hi : i < MaxSatelliteCount
    · have hd : MaxSatelliteCount - i = (MaxSatelliteCount - (i + 1)) + 1 := by omega
      rw [hd, List.take_succ_cons]
      simp only [fillLoop, if_pos hi]
      cases hg : g e <;> simp only [hg] <;> exact ih _ _
    · have hd : MaxSatelliteCount - i = 0 := by omega
      simp [hd, fillLoop, hi]

/-- When the float converter reports an error, the accompanying value is 0
(both on an unrecognized dynamic type and on a string parse failure). -/
theorem parseFloatVariant_error_val (v : DVal)
    (h : (ParseFloatVariant v).2.isSome = true) : (ParseFloatVariant v).1 = 0 := by
  cases v <;> simp [ParseFloatVariant] at h ⊢
  next s =>
    cases hp : parseGoFloat s <;> simp [hp] at h ⊢

/-- Helper: the decimal string of the spec's coercion example evaluates to
the exact rational 617/50 (= 12.34). -/
theorem parse_12_34 : parseDecimal "12.34" = some (617 / 50 : ℚ) := by
  simp +decide [parseDecimal, parseDecimalChars, takeDigits, digitsVal]
  norm_num

/-- C3: for every input value whose representation is not recognized by the
converter, the three integer converters (`ToInt8`, `ToInt32`, `ToUint8`)
return the target type's zero value, whereas `ParseFloatVariant` instead
returns an error result together with value 0. (All four are total pure
Lean functions, the embedding of side-effect-free non-panicking Go
functions.) -/
theorem converters_unrecognized_behavior (v : DVal) :
    (intRecognized v = false → ToInt8 v = 0 ∧ ToInt32 v = 0 ∧ ToUint8 v = 0) ∧
    (floatRecognized v = false →
      (ParseFloatVariant v).1 = 0 ∧ (ParseFloatVariant v).2.isSome = true) := by
  cases v <;>
    simp [intRecognized, floatRecognized, ToInt8, ToInt32, ToUint8, ParseFloatVariant]

/-- C3 witness: a 64-bit integer is unrecognized by all three integer
converters (which yield 0) and by the float converter (which errors). -/
theorem converters_unrecognized_behavior_witness :
    (ToInt8 (.vInt64 7) = 0 ∧ ToInt32 (.vInt64 7) = 0 ∧ ToUint8 (.vInt64 7) = 0) ∧
    ((ParseFloatVariant (.vInt64 7)).1 = 0 ∧
      (ParseFloatVariant (.vInt64 7)).2.isSome = true) :=
  ⟨(converters_unrecognized_behavior (.vInt64 7)).1 rfl,
   (converters_unrecognized_behavior (.vInt64 7)).2 rfl⟩

/-- C4: the converters narrow by value with wraparound and no overflow
check: `ToUint8` of `int32 n` (or of `int n`) is `n mod 2^8`; `ToInt8` of
`int32 n` is the unique value congruent to `n` mod 2^8 inside
`[-2^7, 2^7)`; `ToInt32` of `int n` is the unique value congruent to `n`
mod 2^32 inside `[-2^31, 2^31)`; and the float converter maps a decimal
string and the native floating value it denotes to the same result. -/
theorem integer_narrowing_wraparound (n : Int) (s : String) (x : GoFloat) :
    ((ToUint8 (.vInt32 n) : Int) = n % 2 ^ 8) ∧
    ((ToUint8 (.vInt n) : Int) = n % 2 ^ 8) ∧
    (ToInt8 (.vInt32 n) % 2 ^ 8 = n % 2 ^ 8 ∧
      -(2 ^ 7) ≤ ToInt8 (.vInt32 n) ∧ ToInt8 (.vInt32 n) < 2 ^ 7) ∧
    (ToInt32 (.vInt n) % 2 ^ 32 = n % 2 ^ 32 ∧
      -(2 ^ 31) ≤ ToInt32 (.vInt n) ∧ ToInt32 (.vInt n) < 2 ^ 31) ∧
    (parseDecimal s = some x →
      ParseFloatVariant (.vString s) = (x, none) ∧
        ParseFloatVariant (.vFloat64 x) = (x, none)) := by
  refine ⟨?_, ?_, ?_, ?_, ?_⟩
  · simp only [ToUint8, wrapU8]; omega
  · simp only [ToUint8, wrapU8]; omega
  · simp only [ToInt8, wrapI8]; omega
  · simp only [ToInt32, wrapI32]; omega
  · intro h
    have h2 : parseGoFloat s = some x := by
      rw [parseGoFloat, parseGoFloatChars.eq_def,
        show parseDecimalChars s.toList = some x from h]
    exact ⟨by simp [ParseFloatVariant, h2], rfl⟩

/-- C4 witness: `ToUint8 (int32 300) = 44 = 300 mod 256`, the `ToInt8` and
`ToInt32` wraps at 300 and the string "12.34" and the rational 617/50 map
to the same float result. -/
theorem integer_narrowing_wraparound_witness :
    ((ToUint8 (.vInt32 300) : Int) = 300 % 2 ^ 8) ∧
    ((ToUint8 (.vInt 300) : Int) = 300 % 2 ^ 8) ∧
    (ToInt8 (.vInt32 300) % 2 ^ 8 = 300 % 2 ^ 8 ∧
      -(2 ^ 7) ≤ ToInt8 (.vInt32 300) ∧ ToInt8 (.vInt32 300) < 2 ^ 7) ∧
    (ToInt32 (.vInt 300) % 2 ^ 32 = 300 % 2 ^ 32 ∧
      -(2 ^ 31) ≤ ToInt32 (.vInt 300) ∧ ToInt32 (.vInt 300) < 2 ^ 31) ∧
    (ParseFloatVariant (.vString "12.34") = (617 / 50, none) ∧
      ParseFloatVariant (.vFloat64 (617 / 50)) = (617 / 50, none)) := by
  have h := integer_narrowing_wraparound 300 "12.34" (617 / 50)
  exact ⟨h.1, h.2.1, h.2.2.1, h.2.2.2.1, h.2.2.2.2 parse_12_34⟩

/-- C9: the integer representations the three integer converters convert by
value are exactly int8, uint8, int32, uint32, int and uint: inputs of
dynamic type int64, uint64, int16, uint16, float64 or string all map to 0,
while each type in the recognized set is converted by value (shown at 1). -/
theorem integer_converters_recognized_set (n : Int) (m : Nat) (q : GoFloat) (s : String) :
    (ToInt8 (.vInt64 n) = 0 ∧ ToInt32 (.vInt64 n) = 0 ∧ ToUint8 (.vInt64 n) = 0) ∧
    (ToInt8 (.vUint64 m) = 0 ∧ ToInt32 (.vUint64 m) = 0 ∧ ToUint8 (.vUint64 m) = 0) ∧
    (ToInt8 (.vInt16 n) = 0 ∧ ToInt32 (.vInt16 n) = 0 ∧ ToUint8 (.vInt16 n) = 0) ∧
    (ToInt8 (.vUint16 m) = 0 ∧ ToInt32 (.vUint16 m) = 0 ∧ ToUint8 (.vUint16 m) = 0) ∧
    (ToInt8 (.vFloat64 q) = 0 ∧ ToInt32 (.vFloat64 q) = 0 ∧ ToUint8 (.vFloat64 q) = 0) ∧
    (ToInt8 (.vString s) = 0 ∧ ToInt32 (.vString s) = 0 ∧ ToUint8 (.vString s) = 0) ∧
    (ToInt8 (.vInt8 1) = 1 ∧ ToInt8 (.vUint8 1) = 1 ∧ ToInt8 (.vInt32 1) = 1 ∧
      ToInt8 (.vUint32 1) = 1 ∧ ToInt8 (.vInt 1) = 1 ∧ ToInt8 (.vUint 1) = 1) ∧
    (ToInt32 (.vInt8 1) = 1 ∧ ToInt32 (.vUint8 1) = 1 ∧ ToInt32 (.vInt32 1) = 1 ∧
      ToInt32 (.vUint32 1) = 1 ∧ ToInt32 (.vInt 1) = 1 ∧ ToInt32 (.vUint 1) = 1) ∧
    (ToUint8 (.vInt8 1) = 1 ∧ ToUint8 (.vUint8 1) = 1 ∧ ToUint8 (.vInt32 1) = 1 ∧
      ToUint8 (.vUint32 1) = 1 ∧ ToUint8 (.vInt 1) = 1 ∧ ToUint8 (.vUint 1) = 1) := by
  refine ⟨⟨rfl, rfl, rfl⟩, ⟨rfl, rfl, rfl⟩, ⟨rfl, rfl, rfl⟩, ⟨rfl, rfl, rfl⟩,
    ⟨rfl, rfl, rfl⟩, ⟨rfl, rfl, rfl⟩, ?_, ?_, ?_⟩ <;>
    refine ⟨by decide, by decide, by decide, by decide, by decide, by decide⟩

/-- Helper: Go's `ParseFloat` accepts the hexadecimal literal "0x1p1" with
the exact value 2. -/
theorem parseGoFloat_hex_two : parseGoFloat "0x1p1" = some 2 := by
  have h1 : parseDecimalChars "0x1p1".toList = none := rfl
  have h1b : parseDecimalChars ['0', 'x', '1', 'p', '1'] = none := rfl
  have h2 : underscoreOK "0x1p1".toList = true := rfl
  have h3 : List.filter (fun c => c != '_') "0x1p1".toList = ['0', 'x', '1', 'p', '1'] := rfl
  have hp : parseHexParts ['0', 'x', '1', 'p', '1'] = some ⟨false, 1, 0, false, 1⟩ := rfl
  rw [parseGoFloat, parseGoFloatChars.eq_def, h1, h2]
  simp only [if_true, h3, h1b, parseHexChars, hp]
  norm_num

/-- Helper: Go's `ParseFloat` accepts the underscore-separated literal
"1_000.5" with the exact value 2001/2. -/
theorem parseGoFloat_underscore_value : parseGoFloat "1_000.5" = some (2001 / 2) := by
  have h1 : parseDecimalChars "1_000.5".toList = none := rfl
  have h2 : underscoreOK "1_000.5".toList = true := rfl
  have h3 : List.filter (fun c => c != '_') "1_000.5".toList
      = ['1', '0', '0', '0', '.', '5'] := rfl
  rw [parseGoFloat, parseGoFloatChars.eq_def, h1, h2]
  simp only [if_true, h3]
  simp +decide [parseDecimalChars, takeDigits, digitsVal]
  norm_num

/-- Helper: 2 is finite and far inside float64 range. -/
theorem float64InRange_two : Float64InRange 2 := by
  constructor
  · rw [abs_of_nonneg (by norm_num)]
    norm_num
  · right
    rw [abs_of_nonneg (by norm_num)]
    norm_num

/-- C10 counterexample: "0x1p1" does not parse as a decimal number (the
decimal grammar rejects it), yet the float converter succeeds on it with
value 2 and a nil error, where the claim requires an error result. -/
theorem parseFloat_hex_counterexample :
    parseDecimal "0x1p1" = none ∧
    ParseFloatVariant (.vString "0x1p1") = (2, none) ∧
    ((2 : GoFloat), (none : Option String)) ≠ ((0 : GoFloat), some "invalid syntax") := by
  refine ⟨rfl, ?_, by simp⟩
  simp [ParseFloatVariant, parseGoFloat_hex_two]

/-- C10 (amended): `ParseFloatVariant` succeeds on exactly three dynamic
representations — float64 (returned unchanged), int32 (widened by value),
and a string accepted by `strconv.ParseFloat`, whose syntax extends beyond
decimal numbers to hexadecimal floating-point literals (e.g. "0x1p1" = 2)
and underscore-separated literals, plus the special-value spellings
recognized by `isSpecialFloatString` — and returns an error with result 0
for every other dynamic representation, including the integer types int8,
uint8, uint32, int and uint that the integer converters accept, and for
every string `ParseFloat` rejects. The per-string clauses are scoped to
where the rational embedding is faithful: finite in-range literals
(`Float64InRange`) succeed with their exact value, and a string that is
neither a finite literal nor a special spelling errors with value 0;
special-value strings and out-of-range literals (where Go yields non-finite
values or `ErrRange`) are outside the carrier. -/
theorem parseFloatVariant_accepted_reps (q : GoFloat) (n : Int) (m : Nat) (s : String)
    (l : List DVal) (ll : List (List DVal)) :
    ParseFloatVariant (.vFloat64 q) = (q, none) ∧
    ParseFloatVariant (.vInt32 n) = ((n : ℚ), none) ∧
    (∀ x, parseGoFloat s = some x → Float64InRange x →
      ParseFloatVariant (.vString s) = (x, none)) ∧
    (parseGoFloat s = none → isSpecialFloatString s = false →
      ParseFloatVariant (.vString s) = (0, some "invalid syntax")) ∧
    ParseFloatVariant (.vString "0x1p1") = (2, none) ∧
    ParseFloatVariant (.vString "1_000.5") = (2001 / 2, none) ∧
    isSpecialFloatString "Inf" = true ∧
    isSpecialFloatString "-iNfInItY" = true ∧
    isSpecialFloatString "NaN" = true ∧
    isSpecialFloatString "+NaN" = false ∧
    ParseFloatVariant (.vInt8 n) = (0, some "unexpected type for GNSS value") ∧
    ParseFloatVariant (.vUint8 m) = (0, some "unexpected type for GNSS value") ∧
    ParseFloatVariant (.vUint32 m) = (0, some "unexpected type for GNSS value") ∧
    ParseFloatVariant (.vInt n) = (0, some "unexpected type for GNSS value") ∧
    ParseFloatVariant (.vUint m) = (0, some "unexpected type for GNSS value") ∧
    ParseFloatVariant (.vInt64 n) = (0, some "unexpected type for GNSS value") ∧
    ParseFloatVariant (.vUint64 m) = (0, some "unexpected type for GNSS value") ∧
    ParseFloatVariant (.vInt16 n) = (0, some "unexpected type for GNSS value") ∧
    ParseFloatVariant (.vUint16 m) = (0, some "unexpected type for GNSS value") ∧
    ParseFloatVariant (.vSeq l) = (0, some "unexpected type for GNSS value") ∧
    ParseFloatVariant (.vSeqSeq ll) = (0, some "unexpected type for GNSS value") := by
  refine ⟨rfl, rfl, ?_, ?_, ?_, ?_, rfl, rfl, rfl, rfl, rfl, rfl, rfl, rfl, rfl,
    rfl, rfl, rfl, rfl, rfl, rfl⟩
  · intro x hx _
    simp [ParseFloatVariant, hx]
  · intro hx _
    simp [ParseFloatVariant, hx]
  · simp [ParseFloatVariant, parseGoFloat_hex_two]
  · simp [ParseFloatVariant, parseGoFloat_underscore_value]

/-- C10 (amended) witness: the hexadecimal literal "0x1p1" succeeds with
value 2 through the positive clause, and the non-literal "abc" errors with
value 0 through the negative clause. -/
theorem parseFloatVariant_accepted_reps_witness :
    ParseFloatVariant (.vString "0x1p1") = (2, none) ∧
    ParseFloatVariant (.vString "abc") = (0, some "invalid syntax") ∧
    ParseFloatVariant (.vFloat64 (617 / 50)) = (617 / 50, none) := by
  obtain ⟨-, -, hpos, -⟩ := parseFloatVariant_accepted_reps 0 0 0 "0x1p1" [] []
  obtain ⟨-, -, -, hneg, -⟩ := parseFloatVariant_accepted_reps 0 0 0 "abc" [] []
  obtain ⟨hq, -⟩ := parseFloatVariant_accepted_reps (617 / 50) 0 0 "" [] []
  exact ⟨hpos 2 parseGoFloat_hex_two float64InRange_two, hneg rfl rfl, hq⟩

/-- A failed `int32` type assertion yields the zero value. -/
theorem asInt32_ne (v : DVal) (h : ∀ n, v ≠ .vInt32 n) : asInt32 v = 0 := by
  cases v <;> first | exact absurd rfl (h _) | rfl

/-- A failed `uint64` type assertion yields the zero value. -/
theorem asUint64_ne (v : DVal) (h : ∀ n, v ≠ .vUint64 n) : asUint64 v = 0 := by
  cases v <;> first | exact absurd rfl (h _) | rfl

/-- A failed `uint8` type assertion yields the zero value. -/
theorem asUint8_ne (v : DVal) (h : ∀ n, v ≠ .vUint8 n) : asUint8 v = 0 := by
  cases v <;> first | exact absurd rfl (h _) | rfl

/-- A failed `string` type assertion yields the empty string. -/
theorem asString_ne (v : DVal) (h : ∀ s, v ≠ .vString s) : asString v = "" := by
  cases v <;> first | exact absurd rfl (h _) | rfl

/-- A `utc` value that is not a `[]any` leaves the UTC block at its zero
value. -/
theorem decodeUtc_not_seq (v : DVal) (h : ∀ l, v ≠ .vSeq l) :
    decodeUtc v = defaultUtc := by
  cases v <;> first | exact absurd rfl (h _) | rfl

/-- A `utc` sequence whose length is not 6 leaves the UTC block at its zero
value. -/
theorem decodeUtc_wrong_length (l : List DVal) (h : l.length ≠ 6) :
    decodeUtc (.vSeq l) = defaultUtc := by
  rcases l with _ | ⟨a, _ | ⟨b, _ | ⟨c, _ | ⟨d, _ | ⟨e, _ | ⟨f, _ | ⟨g, t⟩⟩⟩⟩⟩⟩⟩ <;>
    first | rfl | simp at h

/-- A `slmsg` value that is not a `[][]any` leaves the array at its zero
value. -/
theorem decodeSlmsgList_not_seqseq (v : DVal) (h : ∀ l, v ≠ .vSeqSeq l) :
    decodeSlmsgList v = List.replicate MaxSatelliteCount defaultSat := by
  cases v <;> first | exact absurd rfl (h _) | rfl

/-- A `beidou_slmsg` value that is not a `[][]any` leaves the array at its
zero value. -/
theorem decodeBeidouList_not_seqseq (v : DVal) (h : ∀ l, v ≠ .vSeqSeq l) :
    decodeBeidouList v = List.replicate MaxSatelliteCount defaultBeidouSat := by
  cases v <;> first | exact absurd rfl (h _) | rfl

/-- A `possl` value that is not a `[]any` leaves the array at its zero
value. -/
theorem decodePosslList_not_seq (v : DVal) (h : ∀ l, v ≠ .vSeq l) :
    decodePosslList v = List.replicate MaxSatelliteCount 0 := by
  cases v <;> first | exact absurd rfl (h _) | rfl

/-- C1: the decoder is a total function (it cannot fail); decoding the empty
raw record yields the all-default zero value of `GnssFullData`; and for
every raw record, every field whose key is missing — and every field whose
present value is malformed (wrong dynamic type for the assertion-read
scalars, float-converter error for the float scalars, wrong shape for the
`utc` block and the three arrays) — is left at its type's default value. -/
theorem getGnssData_total_default (r : RawRecord) :
    getGnssData [] = defaultGnssFullData ∧
    (List.lookup "valid" r = none → (getGnssData r).Valid = 0) ∧
    (∀ v, List.lookup "valid" r = some v → (∀ n, v ≠ .vInt32 n) →
      (getGnssData r).Valid = 0) ∧
    (List.lookup "last_lock_time_ms" r = none → (getGnssData r).LastLockTimeMs = 0) ∧
    (∀ v, List.lookup "last_lock_time_ms" r = some v → (∀ n, v ≠ .vUint64 n) →
      (getGnssData r).LastLockTimeMs = 0) ∧
    (List.lookup "svnum" r = none → (getGnssData r).Svnum = 0) ∧
    (∀ v, List.lookup "svnum" r = some v → (∀ n, v ≠ .vUint8 n) →
      (getGnssData r).Svnum = 0) ∧
    (List.lookup "beidou_svnum" r = none → (getGnssData r).BeidouSvnum = 0) ∧
    (∀ v, List.lookup "beidou_svnum" r = some v → (∀ n, v ≠ .vUint8 n) →
      (getGnssData r).BeidouSvnum = 0) ∧
    (List.lookup "nshemi" r = none → (getGnssData r).NSHemi = "") ∧
    (∀ v, List.lookup "nshemi" r = some v → (∀ s, v ≠ .vString s) →
      (getGnssData r).NSHemi = "") ∧
    (List.lookup "ewhemi" r = none → (getGnssData r).EWHemi = "") ∧
    (∀ v, List.lookup "ewhemi" r = some v → (∀ s, v ≠ .vString s) →
      (getGnssData r).EWHemi = "") ∧
    (List.lookup "latitude" r = none → (getGnssData r).Latitude = 0) ∧
    (∀ v, List.lookup "latitude" r = some v → (ParseFloatVariant v).2.isSome = true →
      (getGnssData r).Latitude = 0) ∧
    (List.lookup "longitude" r = none → (getGnssData r).Longitude = 0) ∧
    (∀ v, List.lookup "longitude" r = some v → (ParseFloatVariant v).2.isSome = true →
      (getGnssData r).Longitude = 0) ∧
    (List.lookup "gpssta" r = none → (getGnssData r).Gpssta = 0) ∧
    (∀ v, List.lookup "gpssta" r = some v → (∀ n, v ≠ .vUint8 n) →
      (getGnssData r).Gpssta = 0) ∧
    (List.lookup "posslnum" r = none → (getGnssData r).Posslnum = 0) ∧
    (∀ v, List.lookup "posslnum" r = some v → (∀ n, v ≠ .vUint8 n) →
      (getGnssData r).Posslnum = 0) ∧
    (List.lookup "fixmode" r = none → (getGnssData r).Fixmode = 0) ∧
    (∀ v, List.lookup "fixmode" r = some v → (∀ n, v ≠ .vUint8 n) →
      (getGnssData r).Fixmode = 0) ∧
    (List.lookup "pdop" r = none → (getGnssData r).Pdop = 0) ∧
    (∀ v, List.lookup "pdop" r = some v → (ParseFloatVariant v).2.isSome = true →
      (getGnssData r).Pdop = 0) ∧
    (List.lookup "hdop" r = none → (getGnssData r).Hdop = 0) ∧
    (∀ v, List.lookup "hdop" r = some v → (ParseFloatVariant v).2.isSome = true →
      (getGnssData r).Hdop = 0) ∧
    (List.lookup "vdop" r = none → (getGnssData r).Vdop = 0) ∧
    (∀ v, List.lookup "vdop" r = some v → (ParseFloatVariant v).2.isSome = true →
      (getGnssData r).Vdop = 0) ∧
    (List.lookup "altitude" r = none → (getGnssData r).Altitude = 0) ∧
    (∀ v, List.lookup "altitude" r = some v → (ParseFloatVariant v).2.isSome = true →
      (getGnssData r).Altitude = 0) ∧
    (List.lookup "speed" r = none → (getGnssData r).Speed = 0) ∧
    (∀ v, List.lookup "speed" r = some v → (ParseFloatVariant v).2.isSome = true →
      (getGnssData r).Speed = 0) ∧
    (List.lookup "utc" r = none → (getGnssData r).Utc = defaultUtc) ∧
    (∀ v, List.lookup "utc" r = some v → (∀ l, v ≠ .vSeq l) →
      (getGnssData r).Utc = defaultUtc) ∧
    (List.lookup "slmsg" r = none →
      (getGnssData r).Slmsg = List.replicate MaxSatelliteCount defaultSat) ∧
    (∀ v, List.lookup "slmsg" r = some v → (∀ l, v ≠ .vSeqSeq l) →
      (getGnssData r).Slmsg = List.replicate MaxSatelliteCount defaultSat) ∧
    (List.lookup "beidou_slmsg" r = none →
      (getGnssData r).BeidouSlmsg = List.replicate MaxSatelliteCount defaultBeidouSat) ∧
    (∀ v, List.lookup "beidou_slmsg" r = some v → (∀ l, v ≠ .vSeqSeq l) →
      (getGnssData r).BeidouSlmsg = List.replicate MaxSatelliteCount defaultBeidouSat) ∧
    (List.lookup "possl" r = none →
      (getGnssData r).Possl = List.replicate MaxSatelliteCount 0) ∧
    (∀ v, List.lookup "possl" r = some v → (∀ l, v ≠ .vSeq l) →
      (getGnssData r).Possl = List.replicate MaxSatelliteCount 0) := by
  refine ⟨by decide,
    fun h => by simp [getGnssData, h],
    fun v hv hne => by simp [getGnssData, hv, asInt32_ne v hne],
    fun h => by simp [getGnssData, h],
    fun v hv hne => by simp [getGnssData, hv, asUint64_ne v hne],
    fun h => by simp [getGnssData, h],
    fun v hv hne => by simp [getGnssData, hv, asUint8_ne v hne],
    fun h => by simp [getGnssData, h],
    fun v hv hne => by simp [getGnssData, hv, asUint8_ne v hne],
    fun h => by simp [getGnssData, h],
    fun v hv hne => by simp [getGnssData, hv, asString_ne v hne],
    fun h => by simp [getGnssData, h],
    fun v hv hne => by simp [getGnssData, hv, asString_ne v hne],
    fun h => by simp [getGnssData, h],
    fun v hv he => by simp [getGnssData, hv, parseFloatVariant_error_val v he],
    fun h => by simp [getGnssData, h],
    fun v hv he => by simp [getGnssData, hv, parseFloatVariant_error_val v he],
    fun h => by simp [getGnssData, h],
    fun v hv hne => by simp [getGnssData, hv, asUint8_ne v hne],
    fun h => by simp [getGnssData, h],
    fun v hv hne => by simp [getGnssData, hv, asUint8_ne v hne],
    fun h => by simp [getGnssData, h],
    fun v hv hne => by simp [getGnssData, hv, asUint8_ne v hne],
    fun h => by simp [getGnssData, h],
    fun v hv he => by simp [getGnssData, hv, parseFloatVariant_error_val v he],
    fun h => by simp [getGnssData, h],
    fun v hv he => by simp [getGnssData, hv, parseFloatVariant_error_val v he],
    fun h => by simp [getGnssData, h],
    fun v hv he => by simp [getGnssData, hv, parseFloatVariant_error_val v he],
    fun h => by simp [getGnssData, h],
    fun v hv he => by simp [getGnssData, hv, parseFloatVariant_error_val v he],
    fun h => by simp [getGnssData, h],
    fun v hv he => by simp [getGnssData, hv, parseFloatVariant_error_val v he],
    fun h => by simp [getGnssData, h],
    fun v hv hne => by simp [getGnssData, hv, decodeUtc_not_seq v hne],
    fun h => by simp [getGnssData, h],
    fun v hv hne => by simp [getGnssData, hv, decodeSlmsgList_not_seqseq v hne],
    fun h => by simp [getGnssData, h],
    fun v hv hne => by simp [getGnssData, hv, decodeBeidouList_not_seqseq v hne],
    fun h => by simp [getGnssData, h],
    fun v hv hne => by simp [getGnssData, hv, decodePosslList_not_seq v hne]⟩

/-- C1 witness: the empty record decodes to the all-default value; with the
record whose only key is a malformed "valid", the missing "utc" and the
malformed "valid" both stay default. -/
theorem getGnssData_total_default_witness :
    getGnssData [] = defaultGnssFullData ∧
    (getGnssData []).Valid = 0 ∧
    (getGnssData [("valid", DVal.vString "x")]).Valid = 0 := by
  obtain ⟨h0, h1, -⟩ := getGnssData_total_default []
  obtain ⟨-, -, h2, -⟩ := getGnssData_total_default [("valid", DVal.vString "x")]
  exact ⟨h0, h1 rfl, h2 _ rfl (fun n hn => DVal.noConfusion hn)⟩

/-- C5 counterexample: the claim says a present "valid" value is coerced via
the matching §4.1 converter (`ToInt32`), so any recognized numeric
representation would populate the field; but for the record whose "valid"
key holds `uint8(1)` the decoder yields `Valid = 0` while `ToInt32` of the
same value is `1`. -/
theorem scalar_coercion_claim_counterexample :
    (getGnssData [("valid", DVal.vUint8 1)]).Valid = 0 ∧
    ToInt32 (DVal.vUint8 1) = 1 ∧ (0 : Int) ≠ 1 := by decide

/-- C5 (amended): each scalar field is looked up by its exact key name and
left at its default when the key is absent; when present, the seven
float-coercible fields are coerced via `ParseFloatVariant` (so any of its
recognized numeric representations populates them by value), while every
other scalar field is filled by an exact dynamic-type assertion of its
target type, which yields the zero value on any other representation —
even one the §4.1 integer converters would accept. -/
theorem scalar_fields_exact_assertion (r : RawRecord) :
    (∀ v, List.lookup "valid" r = some v → (getGnssData r).Valid = asInt32 v) ∧
    (∀ m : Nat, List.lookup "valid" r = some (.vUint8 m) → (getGnssData r).Valid = 0) ∧
    (∀ v, List.lookup "latitude" r = some v →
      (getGnssData r).Latitude = (ParseFloatVariant v).1) ∧
    (∀ n : Int, List.lookup "latitude" r = some (.vInt32 n) →
      (getGnssData r).Latitude = (n : ℚ)) ∧
    (∀ n : Int, List.lookup "svnum" r = some (.vInt32 n) → (getGnssData r).Svnum = 0) ∧
    (∀ v, List.lookup "last_lock_time_ms" r = some v →
      (getGnssData r).LastLockTimeMs = asUint64 v) ∧
    (∀ v, List.lookup "svnum" r = some v → (getGnssData r).Svnum = asUint8 v) ∧
    (∀ v, List.lookup "beidou_svnum" r = some v →
      (getGnssData r).BeidouSvnum = asUint8 v) ∧
    (∀ v, List.lookup "nshemi" r = some v → (getGnssData r).NSHemi = asString v) ∧
    (∀ v, List.lookup "ewhemi" r = some v → (getGnssData r).EWHemi = asString v) ∧
    (∀ v, List.lookup "gpssta" r = some v → (getGnssData r).Gpssta = asUint8 v) ∧
    (∀ v, List.lookup "posslnum" r = some v → (getGnssData r).Posslnum = asUint8 v) ∧
    (∀ v, List.lookup "fixmode" r = some v → (getGnssData r).Fixmode = asUint8 v) ∧
    (∀ v, List.lookup "longitude" r = some v →
      (getGnssData r).Longitude = (ParseFloatVariant v).1) ∧
    (∀ v, List.lookup "pdop" r = some v → (getGnssData r).Pdop = (ParseFloatVariant v).1) ∧
    (∀ v, List.lookup "hdop" r = some v → (getGnssData r).Hdop = (ParseFloatVariant v).1) ∧
    (∀ v, List.lookup "vdop" r = some v → (getGnssData r).Vdop = (ParseFloatVariant v).1) ∧
    (∀ v, List.lookup "altitude" r = some v →
      (getGnssData r).Altitude = (ParseFloatVariant v).1) ∧
    (∀ v, List.lookup "speed" r = some v →
      (getGnssData r).Speed = (ParseFloatVariant v).1) ∧
    (List.lookup "valid" r = none → (getGnssData r).Valid = 0) ∧
    (List.lookup "last_lock_time_ms" r = none → (getGnssData r).LastLockTimeMs = 0) ∧
    (List.lookup "svnum" r = none → (getGnssData r).Svnum = 0) ∧
    (List.lookup "beidou_svnum" r = none → (getGnssData r).BeidouSvnum = 0) ∧
    (List.lookup "nshemi" r = none → (getGnssData r).NSHemi = "") ∧
    (List.lookup "ewhemi" r = none → (getGnssData r).EWHemi = "") ∧
    (List.lookup "gpssta" r = none → (getGnssData r).Gpssta = 0) ∧
    (List.lookup "posslnum" r = none → (getGnssData r).Posslnum = 0) ∧
    (List.lookup "fixmode" r = none → (getGnssData r).Fixmode = 0) ∧
    (List.lookup "latitude" r = none → (getGnssData r).Latitude = 0) ∧
    (List.lookup "longitude" r = none → (getGnssData r).Longitude = 0) ∧
    (List.lookup "pdop" r = none → (getGnssData r).Pdop = 0) ∧
    (List.lookup "hdop" r = none → (getGnssData r).Hdop = 0) ∧
    (List.lookup "vdop" r = none → (getGnssData r).Vdop = 0) ∧
    (List.lookup "altitude" r = none → (getGnssData r).Altitude = 0) ∧
    (List.lookup "speed" r = none → (getGnssData r).Speed = 0) := by
  refine ⟨fun v h => by simp [getGnssData, h],
    fun m h => by simp [getGnssData, h, asInt32],
    fun v h => by simp [getGnssData, h],
    fun n h => by simp [getGnssData, h, ParseFloatVariant],
    fun n h => by simp [getGnssData, h, asUint8],
    fun v h => by simp [getGnssData, h],
    fun v h => by simp [getGnssData, h],
    fun v h => by simp [getGnssData, h],
    fun v h => by simp [getGnssData, h],
    fun v h => by simp [getGnssData, h],
    fun v h => by simp [getGnssData, h],
    fun v h => by simp [getGnssData, h],
    fun v h => by simp [getGnssData, h],
    fun v h => by simp [getGnssData, h],
    fun v h => by simp [getGnssData, h],
    fun v h => by simp [getGnssData, h],
    fun v h => by simp [getGnssData, h],
    fun v h => by simp [getGnssData, h],
    fun v h => by simp [getGnssData, h],
    fun h => by simp [getGnssData, h],
    fun h => by simp [getGnssData, h],
    fun h => by simp [getGnssData, h],
    fun h => by simp [getGnssData, h],
    fun h => by simp [getGnssData, h],
    fun h => by simp [getGnssData, h],
    fun h => by simp [getGnssData, h],
    fun h => by simp [getGnssData, h],
    fun h => by simp [getGnssData, h],
    fun h => by simp [getGnssData, h],
    fun h => by simp [getGnssData, h],
    fun h => by simp [getGnssData, h],
    fun h => by simp [getGnssData, h],
    fun h => by simp [getGnssData, h],
    fun h => by simp [getGnssData, h],
    fun h => by simp [getGnssData, h]⟩

/-- C5 (amended) witness: one record exercising the assertion-read field
(recognized numeric but wrong dynamic type gives 0, matching type gives the
value), the float field via int32, and the zero-on-mismatch contrast. -/
theorem scalar_fields_exact_assertion_witness :
    (getGnssData [("valid", DVal.vUint8 1), ("latitude", DVal.vInt32 3),
        ("svnum", DVal.vInt32 4)]).Valid = 0 ∧
    (getGnssData [("valid", DVal.vUint8 1), ("latitude", DVal.vInt32 3),
        ("svnum", DVal.vInt32 4)]).Latitude = (3 : ℚ) ∧
    (getGnssData [("valid", DVal.vUint8 1), ("latitude", DVal.vInt32 3),
        ("svnum", DVal.vInt32 4)]).Svnum = 0 ∧
    (getGnssData [("valid", DVal.vInt32 5)]).Valid = 5 := by
  obtain ⟨-, h2, -, h4, h5, -⟩ := scalar_fields_exact_assertion
    [("valid", DVal.vUint8 1), ("latitude", DVal.vInt32 3), ("svnum", DVal.vInt32 4)]
  obtain ⟨h1, -⟩ := scalar_fields_exact_assertion [("valid", DVal.vInt32 5)]
  exact ⟨h2 1 rfl, h4 3 rfl, h5 4 rfl, h1 _ rfl⟩

/-- C6: the `Utc` sub-record is populated positionally (Year, Month, Date,
Hour, Min, Sec) exactly when the key "utc" holds a sequence of exactly 6
elements; when the key is absent, of the wrong shape, or a sequence of a
different length, the whole sub-record stays at its all-zero default. -/
theorem utc_block_positional (r : RawRecord) :
    (∀ a b c d e f, List.lookup "utc" r = some (.vSeq [a, b, c, d, e, f]) →
      (getGnssData r).Utc =
        ⟨ToInt32 a, ToInt8 b, ToInt8 c, ToInt8 d, ToInt8 e, ToInt8 f⟩) ∧
    (List.lookup "utc" r = none → (getGnssData r).Utc = defaultUtc) ∧
    (∀ v, List.lookup "utc" r = some v → (∀ l, v ≠ .vSeq l) →
      (getGnssData r).Utc = defaultUtc) ∧
    (∀ l, List.lookup "utc" r = some (.vSeq l) → l.length ≠ 6 →
      (getGnssData r).Utc = defaultUtc) := by
  refine ⟨fun a b c d e f h => by simp [getGnssData, h, decodeUtc],
    fun h => by simp [getGnssData, h],
    fun v hv hne => by simp [getGnssData, hv, decodeUtc_not_seq v hne],
    fun l hl hlen => by simp [getGnssData, hl, decodeUtc_wrong_length l hlen]⟩

/-- C6 witness: the spec's two UTC examples, a 6-element sequence populating
the block positionally and a 2-element sequence leaving it default. -/
theorem utc_block_positional_witness :
    (getGnssData [("utc", DVal.vSeq [.vInt32 2024, .vInt32 6, .vInt32 15,
        .vInt32 10, .vInt32 30, .vInt32 0])]).Utc = ⟨2024, 6, 15, 10, 30, 0⟩ ∧
    (getGnssData [("utc", DVal.vSeq [.vInt32 2024, .vInt32 6])]).Utc = defaultUtc := by
  have h1 := (utc_block_positional [("utc", DVal.vSeq [.vInt32 2024, .vInt32 6,
    .vInt32 15, .vInt32 10, .vInt32 30, .vInt32 0])]).1
    (.vInt32 2024) (.vInt32 6) (.vInt32 15) (.vInt32 10) (.vInt32 30) (.vInt32 0) rfl
  have h2 := (utc_block_positional [("utc", DVal.vSeq [.vInt32 2024, .vInt32 6])]).2.2.2
    [.vInt32 2024, .vInt32 6] rfl (by decide)
  exact ⟨h1.trans (by decide), h2⟩

/-- An inner satellite row whose length is not 4 is skipped by the decoder. -/
theorem mkSlmsg_wrong_length (e : List DVal) (h : e.length ≠ 4) :
    mkSlmsg e = none := by
  rcases e with _ | ⟨a, _ | ⟨b, _ | ⟨c, _ | ⟨d, _ | ⟨x, t⟩⟩⟩⟩⟩ <;>
    first | rfl | simp at h

/-- An inner Beidou satellite row whose length is not 4 is skipped. -/
theorem mkBeidouSlmsg_wrong_length (e : List DVal) (h : e.length ≠ 4) :
    mkBeidouSlmsg e = none := by
  rcases e with _ | ⟨a, _ | ⟨b, _ | ⟨c, _ | ⟨d, _ | ⟨x, t⟩⟩⟩⟩⟩ <;>
    first | rfl | simp at h

/-- C7: for both satellite sequences the decoder walks indices up to
`min(reported length, 12)`; slot `i` is populated positionally (catalog
number, elevation, azimuth, signal-to-noise) exactly when inner sequence
`i` has length 4, and an inner sequence of any other length leaves that
slot at its default while every other valid slot is still populated — the
iteration is not aborted. -/
theorem satellite_rows_positional (r : RawRecord) :
    (∀ arr j a b c d, List.lookup "slmsg" r = some (.vSeqSeq arr) →
      j < MaxSatelliteCount → arr[j]? = some [a, b, c, d] →
      (getGnssData r).Slmsg[j]? = some ⟨ToInt8 a, ToInt8 b, ToInt32 c, ToInt8 d⟩) ∧
    (∀ arr j e, List.lookup "slmsg" r = some (.vSeqSeq arr) →
      j < MaxSatelliteCount → arr[j]? = some e → e.length ≠ 4 →
      (getGnssData r).Slmsg[j]? = some defaultSat) ∧
    (∀ arr j a b c d, List.lookup "beidou_slmsg" r = some (.vSeqSeq arr) →
      j < MaxSatelliteCount → arr[j]? = some [a, b, c, d] →
      (getGnssData r).BeidouSlmsg[j]? =
        some ⟨ToInt8 a, ToInt8 b, ToInt32 c, ToInt8 d⟩) ∧
    (∀ arr j e, List.lookup "beidou_slmsg" r = some (.vSeqSeq arr) →
      j < MaxSatelliteCount → arr[j]? = some e → e.length ≠ 4 →
      (getGnssData r).BeidouSlmsg[j]? = some defaultBeidouSat) := by
  refine ⟨?_, ?_, ?_, ?_⟩
  · intro arr j a b c d hl hj he
    have hs := fillLoop_getElem_set mkSlmsg
      (List.replicate MaxSatelliteCount defaultSat) arr 0 j [a, b, c, d]
      ⟨ToInt8 a, ToInt8 b, ToInt32 c, ToInt8 d⟩
      (by simpa using he) rfl (Nat.zero_le j) hj (by simpa using hj)
    simpa [getGnssData, hl, decodeSlmsgList] using hs
  · intro arr j e hl hj he hlen
    have hs := fillLoop_getElem_skip mkSlmsg
      (List.replicate MaxSatelliteCount defaultSat) arr 0 j e
      (by simpa using he) (mkSlmsg_wrong_length e hlen) (Nat.zero_le j) hj
    rw [List.getElem?_replicate_of_lt hj] at hs
    simpa [getGnssData, hl, decodeSlmsgList] using hs
  · intro arr j a b c d hl hj he
    have hs := fillLoop_getElem_set mkBeidouSlmsg
      (List.replicate MaxSatelliteCount defaultBeidouSat) arr 0 j [a, b, c, d]
      ⟨ToInt8 a, ToInt8 b, ToInt32 c, ToInt8 d⟩
      (by simpa using he) rfl (Nat.zero_le j) hj (by simpa using hj)
    simpa [getGnssData, hl, decodeBeidouList] using hs
  · intro arr j e hl hj he hlen
    have hs := fillLoop_getElem_skip mkBeidouSlmsg
      (List.replicate MaxSatelliteCount defaultBeidouSat) arr 0 j e
      (by simpa using he) (mkBeidouSlmsg_wrong_length e hlen) (Nat.zero_le j) hj
    rw [List.getElem?_replicate_of_lt hj] at hs
    simpa [getGnssData, hl, decodeBeidouList] using hs

/-- C7 witness: the spec's test — a `slmsg` with a malformed middle row:
slots 0 and 2 are populated, slot 1 stays default. -/
theorem satellite_rows_positional_witness :
    (getGnssData [("slmsg", DVal.vSeqSeq
        [[.vInt32 7, .vInt32 45, .vInt32 120, .vInt32 33], [.vInt32 1],
          [.vInt32 9, .vInt32 10, .vInt32 200, .vInt32 41]])]).Slmsg[0]? =
      some ⟨7, 45, 120, 33⟩ ∧
    (getGnssData [("slmsg", DVal.vSeqSeq
        [[.vInt32 7, .vInt32 45, .vInt32 120, .vInt32 33], [.vInt32 1],
          [.vInt32 9, .vInt32 10, .vInt32 200, .vInt32 41]])]).Slmsg[1]? =
      some defaultSat ∧
    (getGnssData [("slmsg", DVal.vSeqSeq
        [[.vInt32 7, .vInt32 45, .vInt32 120, .vInt32 33], [.vInt32 1],
          [.vInt32 9, .vInt32 10, .vInt32 200, .vInt32 41]])]).Slmsg[2]? =
      some ⟨9, 10, 200, 41⟩ := by
  obtain ⟨hset, hskip, -⟩ := satellite_rows_positional [("slmsg", DVal.vSeqSeq
    [[.vInt32 7, .vInt32 45, .vInt32 120, .vInt32 33], [.vInt32 1],
      [.vInt32 9, .vInt32 10, .vInt32 200, .vInt32 41]])]
  refine ⟨(hset _ 0 _ _ _ _ rfl (by decide) rfl).trans (by decide),
    hskip _ 1 [.vInt32 1] rfl (by decide) rfl (by decide),
    (hset _ 2 _ _ _ _ rfl (by decide) rfl).trans (by decide)⟩

/-- The decoded `Slmsg` array always has `MaxSatelliteCount` slots. -/
theorem decodeSlmsgList_length (v : DVal) :
    (decodeSlmsgList v).length = MaxSatelliteCount := by
  cases v <;> simp [decodeSlmsgList, fillLoop_length]

/-- The decoded `BeidouSlmsg` array always has `MaxSatelliteCount` slots. -/
theorem decodeBeidouList_length (v : DVal) :
    (decodeBeidouList v).length = MaxSatelliteCount := by
  cases v <;> simp [decodeBeidouList, fillLoop_length]

/-- The decoded `Possl` array always has `MaxSatelliteCount` slots. -/
theorem decodePosslList_length (v : DVal) :
    (decodePosslList v).length = MaxSatelliteCount := by
  cases v <;> simp [decodePosslList, fillLoop_length]

/-- C2: the three satellite-indexed collections of every decoded record have
exactly 12 slots, 12 being the one named constant `MaxSatelliteCount` used
for all three; slots at or beyond the reported length stay at the element
type's zero value, and entries beyond the first 12 are ignored (two records
whose reported sequences agree on their first 12 entries decode to the same
collection). -/
theorem satellite_collections_twelve_slots (r : RawRecord) :
    MaxSatelliteCount = 12 ∧
    (getGnssData r).Slmsg.length = MaxSatelliteCount ∧
    (getGnssData r).BeidouSlmsg.length = MaxSatelliteCount ∧
    (getGnssData r).Possl.length = MaxSatelliteCount ∧
    (∀ arr, List.lookup "slmsg" r = some (.vSeqSeq arr) →
      ∀ j, arr.length ≤ j → j < MaxSatelliteCount →
        (getGnssData r).Slmsg[j]? = some defaultSat) ∧
    (∀ arr, List.lookup "beidou_slmsg" r = some (.vSeqSeq arr) →
      ∀ j, arr.length ≤ j → j < MaxSatelliteCount →
        (getGnssData r).BeidouSlmsg[j]? = some defaultBeidouSat) ∧
    (∀ arr, List.lookup "possl" r = some (.vSeq arr) →
      ∀ j, arr.length ≤ j → j < MaxSatelliteCount →
        (getGnssData r).Possl[j]? = some 0) ∧
    (∀ r2 arr arr2, List.lookup "slmsg" r = some (.vSeqSeq arr) →
      List.lookup "slmsg" r2 = some (.vSeqSeq arr2) →
      arr.take MaxSatelliteCount = arr2.take MaxSatelliteCount →
      (getGnssData r).Slmsg = (getGnssData r2).Slmsg) ∧
    (∀ r2 arr arr2, List.lookup "beidou_slmsg" r = some (.vSeqSeq arr) →
      List.lookup "beidou_slmsg" r2 = some (.vSeqSeq arr2) →
      arr.take MaxSatelliteCount = arr2.take MaxSatelliteCount →
      (getGnssData r).BeidouSlmsg = (getGnssData r2).BeidouSlmsg) ∧
    (∀ r2 arr arr2, List.lookup "possl" r = some (.vSeq arr) →
      List.lookup "possl" r2 = some (.vSeq arr2) →
      arr.take MaxSatelliteCount = arr2.take MaxSatelliteCount →
      (getGnssData r).Possl = (getGnssData r2).Possl) := by
  have htake : ∀ {E α : Type} (g : E → Option α) (slots : List α) (arr arr2 : List E),
      arr.take MaxSatelliteCount = arr2.take MaxSatelliteCount →
      fillLoop g slots arr 0 = fillLoop g slots arr2 0 := by
    intro E α g slots arr arr2 h
    rw [← fillLoop_take g slots arr 0, ← fillLoop_take g slots arr2 0, Nat.sub_zero, h]
  refine ⟨rfl, ?_, ?_, ?_, ?_, ?_, ?_, ?_, ?_, ?_⟩
  · cases h : List.lookup "slmsg" r <;> simp [getGnssData, h, decodeSlmsgList_length]
  · cases h : List.lookup "beidou_slmsg" r <;>
      simp [getGnssData, h, decodeBeidouList_length]
  · cases h : List.lookup "possl" r <;> simp [getGnssData, h, decodePosslList_length]
  · intro arr hl j hlen hj
    have hs := fillLoop_getElem_untouched mkSlmsg
      (List.replicate MaxSatelliteCount defaultSat) arr 0 j (by omega)
    rw [List.getElem?_replicate_of_lt hj] at hs
    simpa [getGnssData, hl, decodeSlmsgList] using hs
  · intro arr hl j hlen hj
    have hs := fillLoop_getElem_untouched mkBeidouSlmsg
      (List.replicate MaxSatelliteCount defaultBeidouSat) arr 0 j (by omega)
    rw [List.getElem?_replicate_of_lt hj] at hs
    simpa [getGnssData, hl, decodeBeidouList] using hs
  · intro arr hl j hlen hj
    have hs := fillLoop_getElem_untouched mkPossl
      (List.replicate MaxSatelliteCount 0) arr 0 j (by omega)
    rw [List.getElem?_replicate_of_lt hj] at hs
    simpa [getGnssData, hl, decodePosslList] using hs
  · intro r2 arr arr2 h1 h2 htk
    simp only [getGnssData, h1, h2, decodeSlmsgList]
    exact htake _ _ _ _ htk
  · intro r2 arr arr2 h1 h2 htk
    simp only [getGnssData, h1, h2, decodeBeidouList]
    exact htake _ _ _ _ htk
  · intro r2 arr arr2 h1 h2 htk
    simp only [getGnssData, h1, h2, decodePosslList]
    exact htake _ _ _ _ htk

/-- C2 witness: a 13-row `slmsg` decodes identically to its first 12 rows
(extra entry ignored), a 1-row `slmsg` leaves slots 1..11 default, and all
three collections have length 12. -/
theorem satellite_collections_twelve_slots_witness :
    MaxSatelliteCount = 12 ∧
    (getGnssData [("slmsg", DVal.vSeqSeq (List.replicate 13
      [DVal.vInt32 1, DVal.vInt32 2, DVal.vInt32 3, DVal.vInt32 4]))]).Slmsg =
      (getGnssData [("slmsg", DVal.vSeqSeq (List.replicate 12
        [DVal.vInt32 1, DVal.vInt32 2, DVal.vInt32 3, DVal.vInt32 4]))]).Slmsg ∧
    (getGnssData [("slmsg", DVal.vSeqSeq
      [[DVal.vInt32 1, DVal.vInt32 2, DVal.vInt32 3, DVal.vInt32 4]])]).Slmsg[5]? =
      some defaultSat ∧
    (getGnssData []).Slmsg.length = MaxSatelliteCount ∧
    (getGnssData []).BeidouSlmsg.length = MaxSatelliteCount ∧
    (getGnssData []).Possl.length = MaxSatelliteCount := by
  obtain ⟨h12, -⟩ := satellite_collections_twelve_slots ([] : RawRecord)
  obtain ⟨-, hl1, hl2, hl3, -⟩ := satellite_collections_twelve_slots ([] : RawRecord)
  obtain ⟨-, -, -, -, htl, -⟩ := satellite_collections_twelve_slots
    [("slmsg", DVal.vSeqSeq [[DVal.vInt32 1, DVal.vInt32 2, DVal.vInt32 3, DVal.vInt32 4]])]
  obtain ⟨-, -, -, -, -, -, -, hig, -⟩ := satellite_collections_twelve_slots
    [("slmsg", DVal.vSeqSeq (List.replicate 13
      [DVal.vInt32 1, DVal.vInt32 2, DVal.vInt32 3, DVal.vInt32 4]))]
  refine ⟨h12,
    hig _ _ _ rfl rfl (by simp [MaxSatelliteCount, List.take_replicate]),
    htl _ rfl 5 (by decide) (by decide), hl1, hl2, hl3⟩

/-- C8: on every tick of the acquisition loop, a failed acquisition call
publishes nothing for that tick and the loop continues — every tick of the
trace produces exactly one logged outcome (the loop body is total and never
terminates the loop) — and every record handed to the publish call on a
tick comes from a successful acquisition of that same tick. -/
theorem loop_skips_failed_ticks (ticks : List TickInput) :
    (runLoop ticks).length = ticks.length ∧
    (∀ (i : Nat) (t : TickInput), ticks[i]? = some t →
      (∀ e, t.acq = .error e → (runLoop ticks)[i]? = some (.acquireFailed, [])) ∧
      (∀ ev out, (runLoop ticks)[i]? = some (ev, out) →
        ∀ d ∈ out, ∃ raw, t.acq = .ok raw ∧ d = getGnssData raw)) := by
  constructor
  · simp [runLoop]
  · intro i t ht
    have hpt : (runLoop ticks)[i]? = some (processTick t) := by
      simp [runLoop, List.getElem?_map, ht]
    constructor
    · intro e he
      rw [hpt]
      simp [processTick, he]
    · intro ev out hev d hd
      rw [hpt] at hev
      have hev' : processTick t = (ev, out) := Option.some.inj hev
      rcases hacq : t.acq with e | raw
      · simp only [processTick, hacq] at hev'
        injection hev' with h1 h2
        rw [← h2] at hd
        simp at hd
      · refine ⟨raw, rfl, ?_⟩
        simp only [processTick, hacq] at hev'
        split_ifs at hev' <;> injection hev' with h1 h2 <;> rw [← h2] at hd <;>
          simp at hd <;> exact hd

/-- C8 witness: a two-tick trace, first tick's acquisition failing and the
second succeeding: the failed tick publishes nothing, the successful one
publishes the decoded record of its own acquisition. -/
theorem loop_skips_failed_ticks_witness :
    (runLoop [⟨.error "dbus down", true, true⟩, ⟨.ok [], true, true⟩]).length = 2 ∧
    (runLoop [⟨.error "dbus down", true, true⟩,
      ⟨.ok [], true, true⟩])[0]? = some (.acquireFailed, []) ∧
    (∀ d ∈ [getGnssData []], ∃ raw,
      (Except.ok [] : Except String RawRecord) = .ok raw ∧ d = getGnssData raw) := by
  obtain ⟨hlen, hper⟩ := loop_skips_failed_ticks
    [⟨.error "dbus down", true, true⟩, ⟨.ok [], true, true⟩]
  obtain ⟨hfail, -⟩ := hper 0 ⟨.error "dbus down", true, true⟩ rfl
  obtain ⟨-, hpub⟩ := hper 1 ⟨.ok [], true, true⟩ rfl
  exact ⟨hlen, hfail "dbus down" rfl, hpub .published [getGnssData []] rfl⟩
